import Mathlib

/-!
Verification development for the GBFS station-status client
(`BarcelonaBikingClient` / `StationStatusInfo` in `1c/ej1c3.py`).

The Python program is dynamically typed: JSON values flow through it
unchecked, and runtime type errors surface as exceptions.  We embed it
shallowly: JSON values are the inductive `Json`, Python exceptions are the
`PyErr` error component of `Except`, and each method of the client becomes a
Lean function from an abstract description of the single HTTP exchange
(`FetchResult`) to its result.
-/

/-- A JSON value, as produced by `response.json()` in Python.  `null` doubles
as Python's `None` (JSON `null` parses to `None`).  Objects parsed from JSON
text have distinct keys (`json.loads` keeps the last duplicate), so field
lists here are assumed duplicate-free and lookup is first-match. -/
inductive Json where
  | null : Json
  | bool (b : Bool) : Json
  | num (n : Int) : Json
  | str (s : String) : Json
  | arr (elems : List Json) : Json
  | obj (fields : List (String × Json)) : Json
deriving Repr

mutual

/-- Structural decidable equality for `Json` (written by hand: `deriving`
does not handle the nested occurrences in `arr`/`obj`). -/
def Json.decEq : (a b : Json) → Decidable (a = b)
  | .null, .null => isTrue rfl
  | .bool a, .bool b =>
    if h : a = b then isTrue (by rw [h]) else isFalse (by intro he; cases he; exact h rfl)
  | .num a, .num b =>
    if h : a = b then isTrue (by rw [h]) else isFalse (by intro he; cases he; exact h rfl)
  | .str a, .str b =>
    if h : a = b then isTrue (by rw [h]) else isFalse (by intro he; cases he; exact h rfl)
  | .arr xs, .arr ys =>
    match Json.decEqList xs ys with
    | isTrue h => isTrue (by rw [h])
    | isFalse h => isFalse (by intro he; cases he; exact h rfl)
  | .obj xs, .obj ys =>
    match Json.decEqFields xs ys with
    | isTrue h => isTrue (by rw [h])
    | isFalse h => isFalse (by intro he; cases he; exact h rfl)
  | .null, .bool _ => isFalse (fun h => Json.noConfusion h)
  | .null, .num _ => isFalse (fun h => Json.noConfusion h)
  | .null, .str _ => isFalse (fun h => Json.noConfusion h)
  | .null, .arr _ => isFalse (fun h => Json.noConfusion h)
  | .null, .obj _ => isFalse (fun h => Json.noConfusion h)
  | .bool _, .null => isFalse (fun h => Json.noConfusion h)
  | .bool _, .num _ => isFalse (fun h => Json.noConfusion h)
  | .bool _, .str _ => isFalse (fun h => Json.noConfusion h)
  | .bool _, .arr _ => isFalse (fun h => Json.noConfusion h)
  | .bool _, .obj _ => isFalse (fun h => Json.noConfusion h)
  | .num _, .null => isFalse (fun h => Json.noConfusion h)
  | .num _, .bool _ => isFalse (fun h => Json.noConfusion h)
  | .num _, .str _ => isFalse (fun h => Json.noConfusion h)
  | .num _, .arr _ => isFalse (fun h => Json.noConfusion h)
  | .num _, .obj _ => isFalse (fun h => Json.noConfusion h)
  | .str _, .null => isFalse (fun h => Json.noConfusion h)
  | .str _, .bool _ => isFalse (fun h => Json.noConfusion h)
  | .str _, .num _ => isFalse (fun h => Json.noConfusion h)
  | .str _, .arr _ => isFalse (fun h => Json.noConfusion h)
  | .str _, .obj _ => isFalse (fun h => Json.noConfusion h)
  | .arr _, .null => isFalse (fun h => Json.noConfusion h)
  | .arr _, .bool _ => isFalse (fun h => Json.noConfusion h)
  | .arr _, .num _ => isFalse (fun h => Json.noConfusion h)
  | .arr _, .str _ => isFalse (fun h => Json.noConfusion h)
  | .arr _, .obj _ => isFalse (fun h => Json.noConfusion h)
  | .obj _, .null => isFalse (fun h => Json.noConfusion h)
  | .obj _, .bool _ => isFalse (fun h => Json.noConfusion h)
  | .obj _, .num _ => isFalse (fun h => Json.noConfusion h)
  | .obj _, .str _ => isFalse (fun h => Json.noConfusion h)
  | .obj _, .arr _ => isFalse (fun h => Json.noConfusion h)

/-- Decidable equality on lists of `Json` values. -/
def Json.decEqList : (xs ys : List Json) → Decidable (xs = ys)
  | [], [] => isTrue rfl
  | [], _ :: _ => isFalse (fun h => List.noConfusion h)
  | _ :: _, [] => isFalse (fun h => List.noConfusion h)
  | x :: xs, y :: ys =>
    match Json.decEq x y, Json.decEqList xs ys with
    | isTrue h1, isTrue h2 => isTrue (by rw [h1, h2])
    | isFalse h1, _ => isFalse (by intro he; injection he with he1 he2; exact h1 he1)
    | _, isFalse h2 => isFalse (by intro he; injection he with he1 he2; exact h2 he2)

/-- Decidable equality on object field lists. -/
def Json.decEqFields : (xs ys : List (String × Json)) → Decidable (xs = ys)
  | [], [] => isTrue rfl
  | [], _ :: _ => isFalse (fun h => List.noConfusion h)
  | _ :: _, [] => isFalse (fun h => List.noConfusion h)
  | (k1, v1) :: xs, (k2, v2) :: ys =>
    if hk : k1 = k2 then
      match Json.decEq v1 v2, Json.decEqFields xs ys with
      | isTrue h1, isTrue h2 => isTrue (by rw [hk, h1, h2])
      | isFalse h1, _ => isFalse (by
          intro he; injection he with he1 he2
          exact h1 (congrArg Prod.snd he1))
      | _, isFalse h2 => isFalse (by intro he; injection he with he1 he2; exact h2 he2)
    else isFalse (by
      intro he; injection he with he1 he2
      exact hk (congrArg Prod.fst he1))

end

instance : DecidableEq Json := Json.decEq

/-- The Python exception classes the program can raise or catch. -/
inductive PyErr where
  | requestException : PyErr
  | valueError : PyErr
  | keyError : PyErr
  | attributeError : PyErr
  | typeError : PyErr
deriving DecidableEq, Repr

/-- First-match lookup in an object's field list (Python `dict` access on a
duplicate-free key list). -/
def lookupField : List (String × Json) → String → Option Json
  | [], _ => none
  | (k, v) :: rest, key => if k = key then some v else lookupField rest key

/-- Python `x.get(key, default)`: on a dict returns the value or the default;
on any non-dict value raises `AttributeError` (no `get` attribute). -/
def dictGet (j : Json) (key : String) (default : Json) : Except PyErr Json :=
  match j with
  | .obj fields => .ok ((lookupField fields key).getD default)
  | _ => .error .attributeError

mutual

/-- Python `==` between two JSON values.  It never raises: `True == 1` and
`False == 0` hold (bool is an int subtype), values of unrelated types
compare unequal, lists compare elementwise.  (Python dict equality is
key-set based rather than order based, but the program never compares two
dicts — dicts are unhashable as keys and `station_id` is only compared with
a string — so for `obj` we use the field-list comparison.) -/
def pyEq : Json → Json → Bool
  | .null, .null => true
  | .bool a, .bool b => a == b
  | .bool a, .num n => (if a then (1 : Int) else 0) == n
  | .num n, .bool b => n == (if b then (1 : Int) else 0)
  | .num a, .num b => a == b
  | .str a, .str b => a == b
  | .arr xs, .arr ys => pyEqList xs ys
  | .obj xs, .obj ys => pyEqFields xs ys
  | _, _ => false

/-- Elementwise Python `==` on JSON arrays. -/
def pyEqList : List Json → List Json → Bool
  | [], [] => true
  | x :: xs, y :: ys => pyEq x y && pyEqList xs ys
  | _, _ => false

/-- Fieldwise comparison of object field lists. -/
def pyEqFields : List (String × Json) → List (String × Json) → Bool
  | [], [] => true
  | (k1, v1) :: xs, (k2, v2) :: ys => k1 == k2 && pyEq v1 v2 && pyEqFields xs ys
  | _, _ => false

end

/-- Python truthiness (`bool(x)`): `None`, `False`, `0`, `""`, `[]` and `{}`
are falsy, everything else truthy. -/
def truthy : Json → Bool
  | .null => false
  | .bool b => b
  | .num n => n != 0
  | .str s => s != ""
  | .arr xs => !xs.isEmpty
  | .obj fs => !fs.isEmpty

/-- Python `a and b`: returns `a` when `a` is falsy, else `b`
(short-circuit value semantics, not necessarily a bool). -/
def pyAnd (a b : Json) : Json := if truthy a then b else a

/-- Python iteration (`for x in j`): lists yield their elements, strings
yield their characters as one-character strings, dicts yield their keys;
any other value raises `TypeError` (not iterable). -/
def pyIter : Json → Except PyErr (List Json)
  | .arr xs => .ok xs
  | .str s => .ok (s.toList.map (fun c => .str (String.mk [c])))
  | .obj fields => .ok (fields.map (fun kv => .str kv.fst))
  | _ => .error .typeError

/-- Python hashability of a JSON value: scalars are hashable, lists and
dicts are not (using one as a dict key raises `TypeError`). -/
def hashable : Json → Bool
  | .arr _ => false
  | .obj _ => false
  | _ => true

/-- Canonical form of a hashable key: Python hashes `True` like `1` and
`False` like `0`, so bools collapse to their numeric value.  On hashable
values `pyEq` coincides with equality of canonical forms. -/
def canonKey : Json → Json
  | .bool b => .num (if b then 1 else 0)
  | j => j

/-- Python `d[k] = v` on a dict represented as an insertion-ordered
association list: an unhashable key raises `TypeError`; an existing key
(up to `pyEq`) keeps its slot and key object and gets the new value;
a new key is appended at the end. -/
def dictAssign (d : List (Json × Json)) (k v : Json) : Except PyErr (List (Json × Json)) :=
  if hashable k then
    .ok (if d.any (fun kv => pyEq kv.fst k) then
           d.map (fun kv => if pyEq kv.fst k then (kv.fst, v) else kv)
         else d ++ [(k, v)])
  else .error .typeError

/-- Python `d.get(k)` on the association-list dict: value at the first
(hence unique) `pyEq`-matching key. -/
def dictFind (d : List (Json × Json)) (k : Json) : Option Json :=
  (d.find? (fun kv => pyEq kv.fst k)).map Prod.snd

/-- The `enum.Enum` class `StationStatus` from the source: the three station states. -/
inductive StationStatus where
  | IN_SERVICE : StationStatus
  | MAINTENANCE : StationStatus
  | OUT_OF_SERVICE : StationStatus
deriving DecidableEq, Repr

/-- The conversion `StationStatus(value)` wrapped in the source's
`try ... except ValueError: self.status = StationStatus.IN_SERVICE`:
one of the three member strings yields that member; any other value
(wrong string, non-string) raises `ValueError`, which the constructor
catches by falling back to `IN_SERVICE`. -/
def stationStatusOfValue : Json → StationStatus
  | .str "IN_SERVICE" => .IN_SERVICE
  | .str "MAINTENANCE" => .MAINTENANCE
  | .str "OUT_OF_SERVICE" => .OUT_OF_SERVICE
  | _ => .IN_SERVICE

/-- The dataclass `VehicleType`: a vehicle type id and its available count.
The Python fields are dynamically typed, so both hold arbitrary JSON
values. -/
structure VehicleType where
  vehicle_type_id : Json
  count : Json
deriving DecidableEq, Repr

/-- The class `StationStatusInfo`: one station's snapshot, fields as stored by the
Python constructor (dynamically typed JSON values except `status`, which
the constructor always coerces to a `StationStatus` member). -/
structure StationStatusInfo where
  station_id : Json
  status : StationStatus
  num_bikes_available : Json
  num_bikes_disabled : Json
  num_docks_available : Json
  is_renting : Json
  is_returning : Json
  last_reported : Json
  vehicle_types : List VehicleType
deriving DecidableEq, Repr

/-- A Python list comprehension (or accumulation loop) whose element
expression may raise: elements are produced left to right and the first
raise aborts the whole comprehension. -/
def mapExcept (f : α → Except PyErr β) : List α → Except PyErr (List β)
  | [] => .ok []
  | x :: xs => do
    let y ← f x
    let ys ← mapExcept f xs
    return y :: ys

/-- One turn of the constructor's vehicle-type loop body:
`VehicleType(vehicle_type_id=vt_data.get('vehicle_type_id', ''), count=vt_data.get('count', 0))`. -/
def vehicleTypeOfJson (vt_data : Json) : Except PyErr VehicleType := do
  let id ← dictGet vt_data "vehicle_type_id" (.str "")
  let c ← dictGet vt_data "count" (.num 0)
  return ⟨id, c⟩

/-- The constructor `StationStatusInfo.__init__(station_data)`: field-by-field `get` with
defaults, status coercion with `ValueError` fallback, then the loop
building `vehicle_types` (which aborts on the first raising element, as
an uncaught Python exception would). -/
def StationStatusInfo.init (station_data : Json) : Except PyErr StationStatusInfo := do
  let station_id ← dictGet station_data "station_id" .null
  let status_val ← dictGet station_data "status" (.str "IN_SERVICE")
  let status := stationStatusOfValue status_val
  let num_bikes_available ← dictGet station_data "num_bikes_available" (.num 0)
  let num_bikes_disabled ← dictGet station_data "num_bikes_disabled" (.num 0)
  let num_docks_available ← dictGet station_data "num_docks_available" (.num 0)
  let is_renting ← dictGet station_data "is_renting" (.bool false)
  let is_returning ← dictGet station_data "is_returning" (.bool false)
  let last_reported ← dictGet station_data "last_reported" .null
  let vehicle_types_data ← dictGet station_data "vehicle_types_available" (.arr [])
  let items ← pyIter vehicle_types_data
  let vehicle_types ← mapExcept vehicleTypeOfJson items
  return { station_id, status, num_bikes_available, num_bikes_disabled,
           num_docks_available, is_renting, is_returning, last_reported,
           vehicle_types }

/-- The `is_operational` property:
`self.status == StationStatus.IN_SERVICE and self.is_renting and self.is_returning`.
Python `and` propagates the operand values, so with non-bool flag fields
the result is not necessarily a bool. -/
def StationStatusInfo.is_operational (s : StationStatusInfo) : Json :=
  pyAnd (pyAnd (.bool (s.status = .IN_SERVICE)) s.is_renting) s.is_returning

/-- The dict-building loop of `get_available_bikes_by_type`, starting from
an accumulator (`result = {}` at the first call). -/
def buildDict (d : List (Json × Json)) : List VehicleType → Except PyErr (List (Json × Json))
  | [] => .ok d
  | vt :: rest => do
    let d2 ← dictAssign d vt.vehicle_type_id vt.count
    buildDict d2 rest

/-- The method `get_available_bikes_by_type`: builds `result = {}` then assigns
`result[vt.vehicle_type_id] = vt.count` for each vehicle type in order. -/
def StationStatusInfo.get_available_bikes_by_type (s : StationStatusInfo) :
    Except PyErr (List (Json × Json)) :=
  buildDict [] s.vehicle_types

/-- The fixed `BarcelonaBikingClient.base_url` set in `__init__`. -/
def base_url : String := "https://barcelona.publicbikesystem.net/customer/gbfs/v2/en"

/-- The derived `BarcelonaBikingClient.station_status_url`. -/
def station_status_url : String := base_url ++ "/station_status"

/-- Outcome of the single `requests.get(self.station_status_url)` exchange:
either the transport raises a `requests.exceptions.RequestException`
(DNS, refused connection, timeout), or a response arrives with a status
code and a body.  `body = none` stands for a body that is not parseable
as JSON, on which `response.json()` raises a `ValueError`-compatible
decode error. -/
inductive FetchResult where
  | transportError : FetchResult
  | response (status_code : Nat) (body : Option Json) : FetchResult
deriving DecidableEq, Repr

/-- The body of `get_stations_status`'s `try` block (plus the transport
raise), before the `except` clauses are applied: status check, JSON
decode, `last_updated` extraction, `data`/`stations` navigation with
defaults, then the per-station list comprehension. -/
def get_stations_status_try (r : FetchResult) :
    Except PyErr (List StationStatusInfo × Json) :=
  match r with
  | .transportError => .error .requestException
  | .response status_code body =>
    if status_code ≠ 200 then .ok ([], .null)
    else
      match body with
      | none => .error .valueError
      | some json_data => do
        let last_updated ← dictGet json_data "last_updated" .null
        let data ← dictGet json_data "data" (.obj [])
        let stations_data ← dictGet data "stations" (.arr [])
        let items ← pyIter stations_data
        let stations ← mapExcept StationStatusInfo.init items
        return (stations, last_updated)

/-- Whether a raised exception is caught by
`except requests.exceptions.RequestException` or
`except (ValueError, KeyError)` in `get_stations_status`.
`AttributeError` and `TypeError` match neither clause and propagate. -/
def caughtByFetch : PyErr → Bool
  | .requestException => true
  | .valueError => true
  | .keyError => true
  | .attributeError => false
  | .typeError => false

/-- The method `BarcelonaBikingClient.get_stations_status`: the `try` body with the
two `except` clauses mapping caught exceptions to `([], None)`.  The
returned `Json` is the timestamp slot; `.null` is Python `None`. -/
def get_stations_status (r : FetchResult) :
    Except PyErr (List StationStatusInfo × Json) :=
  match get_stations_status_try r with
  | .ok v => .ok v
  | .error e => if caughtByFetch e then .ok ([], .null) else .error e

/-- The method `BarcelonaBikingClient.find_station_by_id`: fresh fetch, then the
first station whose `station_id == station_id` (Python `==` never
raises), else `None`. -/
def find_station_by_id (r : FetchResult) (station_id : String) :
    Except PyErr (Option StationStatusInfo) := do
  let (stations, _) ← get_stations_status r
  return stations.find? (fun s => pyEq s.station_id (.str station_id))

/-- The method `BarcelonaBikingClient.get_operational_stations`: fresh fetch, then
the list comprehension `[s for s in stations if s.is_operational]`
(the filter condition is Python truthiness of the property value). -/
def get_operational_stations (r : FetchResult) :
    Except PyErr (List StationStatusInfo) := do
  let (stations, _) ← get_stations_status r
  return stations.filter (fun s => truthy s.is_operational)

/-- Python `x >= y` where `y` is an int: int and bool operands compare
numerically (`True` counts as 1); any other left operand raises
`TypeError` (unorderable types).  This is the comparison performed by
`station.num_bikes_available >= min_bikes`. -/
def pyGeInt (a : Json) (m : Int) : Except PyErr Bool :=
  match a with
  | .num n => .ok (decide (m ≤ n))
  | .bool b => .ok (decide (m ≤ if b then (1 : Int) else 0))
  | _ => .error .typeError

/-- A Python list comprehension with a possibly-raising filter condition:
conditions are evaluated left to right and the first raise aborts the
whole comprehension. -/
def filterExcept (p : α → Except PyErr Bool) : List α → Except PyErr (List α)
  | [] => .ok []
  | x :: xs => do
    let b ← p x
    let rest ← filterExcept p xs
    return if b then x :: rest else rest

/-- The method `BarcelonaBikingClient.get_stations_with_available_bikes`: fresh
fetch, then `[s for s in stations if s.num_bikes_available >= min_bikes]`,
with the Python default argument `min_bikes = 1`. -/
def get_stations_with_available_bikes (r : FetchResult) (min_bikes : Int := 1) :
    Except PyErr (List StationStatusInfo) := do
  let (stations, _) ← get_stations_status r
  filterExcept (fun s => pyGeInt s.num_bikes_available min_bikes) stations

/-! ## A concrete snapshot (the example of the spec's testable-properties
section): station A with 5 bikes, renting and returning; station B with 0
bikes, not renting; both in service. -/
/-- The example response body. -/
def exampleBody : Json :=
  .obj [("last_updated", .num 1700000000),
        ("data", .obj [("stations", .arr [
          .obj [("station_id", .str "A"), ("num_bikes_available", .num 5),
                ("is_renting", .bool true), ("is_returning", .bool true),
                ("status", .str "IN_SERVICE")],
          .obj [("station_id", .str "B"), ("num_bikes_available", .num 0),
                ("is_renting", .bool false), ("is_returning", .bool true),
                ("status", .str "IN_SERVICE")]])])]

/-- A successful exchange carrying the example body. -/
def exampleFetch : FetchResult := .response 200 (some exampleBody)

/-- The record the constructor builds for example station A. -/
def stationA : StationStatusInfo :=
  ⟨.str "A", .IN_SERVICE, .num 5, .num 0, .num 0, .bool true, .bool true, .null, []⟩

/-- The record the constructor builds for example station B. -/
def stationB : StationStatusInfo :=
  ⟨.str "B", .IN_SERVICE, .num 0, .num 0, .num 0, .bool false, .bool true, .null, []⟩

/-! ## Claim C9 -/
/-- The spec-side filter condition: the record's bike count is an integer
at least `m`. -/
def specBikesGe (s : StationStatusInfo) (m : Int) : Bool :=
  match s.num_bikes_available with
  | .num n => decide (m ≤ n)
  | _ => false

/-- A record whose vehicle-type list repeats the id "bike": counts 3 and 7
for "bike" around a count 2 for "ebike". -/
def stationDup : StationStatusInfo :=
  ⟨.str "D", .IN_SERVICE, .num 9, .num 0, .num 0, .bool true, .bool true, .null,
   [⟨.str "bike", .num 3⟩, ⟨.str "ebike", .num 2⟩, ⟨.str "bike", .num 7⟩]⟩

/-- Whether a JSON value is a dict. -/
def isObj : Json → Bool
  | .obj _ => true
  | _ => false

/-- Shape of an optional `vehicle_types_available` field the constructor
iterates without raising: absent, or a list of dicts. -/
def wellShapedVtField : Option Json → Bool
  | none => true
  | some (.arr vts) => vts.all isObj
  | some _ => false

/-- The container shape the fetch code navigates without raising, at the
station level: a dict whose `vehicle_types_available`, when present, is a
list of dicts. -/
def wellShapedStation : Json → Bool
  | .obj fields => wellShapedVtField (lookupField fields "vehicle_types_available")
  | _ => false

/-- Shape of an optional `stations` field the fetch iterates without
raising: absent, or a list of well-shaped stations. -/
def wellShapedStationsField : Option Json → Bool
  | none => true
  | some (.arr sts) => sts.all wellShapedStation
  | some _ => false

/-- Shape of an optional `data` field: absent, or a dict with a
well-shaped optional `stations` field. -/
def wellShapedData : Option Json → Bool
  | none => true
  | some (.obj dfields) => wellShapedStationsField (lookupField dfields "stations")
  | some _ => false

/-- The container shape the fetch code navigates without raising, at the
body level: a dict whose `data`, when present, is a dict whose `stations`,
when present, is a list of well-shaped stations. -/
def wellShapedBody : Json → Bool
  | .obj fields => wellShapedData (lookupField fields "data")
  | _ => false

/-! ## General helper lemmas -/
lemma bindE_ok {α β : Type} {x : Except PyErr α} {f : α → Except PyErr β} {b : β} :
    x >>= f = Except.ok b ↔ ∃ a, x = Except.ok a ∧ f a = Except.ok b := by
  cases x with
  | ok a =>
    constructor
    · intro h; exact ⟨a, rfl, h⟩
    · rintro ⟨a2, ha, hf⟩
      injection ha with ha; subst ha; exact hf
  | error e =>
    constructor
    · intro h; exact absurd h (by simp [Bind.bind, Except.bind])
    · rintro ⟨a2, ha, hf⟩; exact absurd ha (by simp)

/-- The constructor on a dict value, written with the pure field reads
resolved (they cannot raise on a dict); only the vehicle-type loop can
still raise. -/
lemma init_obj (fields : List (String × Json)) :
    StationStatusInfo.init (.obj fields) =
      (pyIter ((lookupField fields "vehicle_types_available").getD (.arr []))) >>=
        (fun items => (mapExcept vehicleTypeOfJson items) >>= (fun vts =>
          Except.ok
            { station_id := (lookupField fields "station_id").getD .null
              status := stationStatusOfValue
                ((lookupField fields "status").getD (.str "IN_SERVICE"))
              num_bikes_available := (lookupField fields "num_bikes_available").getD (.num 0)
              num_bikes_disabled := (lookupField fields "num_bikes_disabled").getD (.num 0)
              num_docks_available := (lookupField fields "num_docks_available").getD (.num 0)
              is_renting := (lookupField fields "is_renting").getD (.bool false)
              is_returning := (lookupField fields "is_returning").getD (.bool false)
              last_reported := (lookupField fields "last_reported").getD .null
              vehicle_types := vts })) := rfl

/-- Projections of a successfully constructed record: every scalar field
is the dict value under its key, or the documented default when the key
is missing. -/
lemma init_obj_ok (fields : List (String × Json)) (rec : StationStatusInfo)
    (h : StationStatusInfo.init (.obj fields) = .ok rec) :
    rec.station_id = (lookupField fields "station_id").getD .null ∧
    rec.status = stationStatusOfValue ((lookupField fields "status").getD (.str "IN_SERVICE")) ∧
    rec.num_bikes_available = (lookupField fields "num_bikes_available").getD (.num 0) ∧
    rec.num_bikes_disabled = (lookupField fields "num_bikes_disabled").getD (.num 0) ∧
    rec.num_docks_available = (lookupField fields "num_docks_available").getD (.num 0) ∧
    rec.is_renting = (lookupField fields "is_renting").getD (.bool false) ∧
    rec.is_returning = (lookupField fields "is_returning").getD (.bool false) ∧
    rec.last_reported = (lookupField fields "last_reported").getD .null := by
  rw [init_obj] at h
  obtain ⟨items, hi, h⟩ := bindE_ok.mp h
  obtain ⟨vts, hv, h⟩ := bindE_ok.mp h
  injection h with h
  subst h
  exact ⟨rfl, rfl, rfl, rfl, rfl, rfl, rfl, rfl⟩

/-- A record built from a dict without a vehicle-type list has an empty
`vehicle_types`. -/
lemma init_obj_vt_none (fields : List (String × Json)) (rec : StationStatusInfo)
    (h : StationStatusInfo.init (.obj fields) = .ok rec)
    (hvt : lookupField fields "vehicle_types_available" = none) :
    rec.vehicle_types = [] := by
  rw [init_obj, hvt] at h
  injection h with h
  subst h
  rfl

/-- Python `==` against a string: true exactly for the equal string value
(no cross-type equality involves strings). -/
lemma pyEq_str_iff (j : Json) (s : String) : pyEq j (.str s) = true ↔ j = .str s := by
  cases j <;> simp [pyEq]

lemma beq_decide {α : Type} [DecidableEq α] [BEq α] [LawfulBEq α] (x y : α) :
    (x == y) = decide (x = y) := by
  by_cases h : x = y <;> simp [h]

/-- On a hashable left operand, Python `==` is equality of canonical key
forms (bools collapsed to 0/1). -/
lemma pyEq_canon (a : Json) (ha : hashable a = true) (b : Json) :
    pyEq a b = decide (canonKey a = canonKey b) := by
  cases a with
  | arr xs => simp [hashable] at ha
  | obj fs => simp [hashable] at ha
  | null => cases b <;> simp [pyEq, canonKey]
  | bool ab =>
    cases b with
    | bool bb => cases ab <;> cases bb <;> rfl
    | num n => cases ab <;> simp [pyEq, canonKey, beq_decide]
    | _ => cases ab <;> simp [pyEq, canonKey]
  | num n =>
    cases b with
    | bool bb => cases bb <;> simp [pyEq, canonKey, beq_decide]
    | num m => simp [pyEq, canonKey, beq_decide]
    | _ => simp [pyEq, canonKey]
  | str s =>
    cases b with
    | bool bb => cases bb <;> simp [pyEq, canonKey]
    | str t => simp [pyEq, canonKey, beq_decide]
    | _ => simp [pyEq, canonKey]

/-- Python `==` is reflexive on hashable values. -/
lemma pyEq_refl (a : Json) (ha : hashable a = true) : pyEq a a = true := by
  rw [pyEq_canon a ha]; simp

/-- The property value as a bool, for records whose renting/returning
fields are actual booleans. -/
lemma is_operational_bool (s : StationStatusInfo) (br bt : Bool)
    (h1 : s.is_renting = .bool br) (h2 : s.is_returning = .bool bt) :
    s.is_operational = .bool (decide (s.status = .IN_SERVICE) && br && bt) := by
  unfold StationStatusInfo.is_operational pyAnd
  rw [h1, h2]
  by_cases hs : s.status = .IN_SERVICE <;> cases br <;> cases bt <;>
    simp [truthy, hs]

/-! ## Claim C4 -/
/-- Claim C4: for records whose renting/returning flags are booleans, the
`is_operational` property is true iff `status = IN_SERVICE` and both
flags are true, and false for every other combination of the three
fields. -/
theorem C4_is_operational_iff (s : StationStatusInfo) (br bt : Bool)
    (h1 : s.is_renting = .bool br) (h2 : s.is_returning = .bool bt) :
    s.is_operational = .bool (decide (s.status = .IN_SERVICE) && br && bt) ∧
    (truthy s.is_operational = true ↔
      (s.status = .IN_SERVICE ∧ br = true ∧ bt = true)) := by
  refine ⟨is_operational_bool s br bt h1 h2, ?_⟩
  rw [is_operational_bool s br bt h1 h2]
  by_cases hs : s.status = .IN_SERVICE <;> cases br <;> cases bt <;>
    simp [truthy, hs]

/-- Claim C4 witness: an in-service renting returning station is
operational; flipping any one of the three fields makes it not
operational (two of the 3×2×2 combinations shown concretely, the rest
follow from the theorem's iff). -/
theorem C4_witness :
    truthy (StationStatusInfo.mk (.str "A") .IN_SERVICE (.num 5) (.num 0) (.num 0)
        (.bool true) (.bool true) .null []).is_operational = true ∧
    truthy (StationStatusInfo.mk (.str "B") .MAINTENANCE (.num 5) (.num 0) (.num 0)
        (.bool true) (.bool true) .null []).is_operational = false ∧
    truthy (StationStatusInfo.mk (.str "C") .IN_SERVICE (.num 5) (.num 0) (.num 0)
        (.bool false) (.bool true) .null []).is_operational = false := by
  refine ⟨?_, ?_, ?_⟩
  · exact (C4_is_operational_iff _ true true rfl rfl).2.mpr ⟨rfl, rfl, rfl⟩
  · have h := (C4_is_operational_iff
      (StationStatusInfo.mk (.str "B") .MAINTENANCE (.num 5) (.num 0) (.num 0)
        (.bool true) (.bool true) .null []) true true rfl rfl).2
    simp at h
    simpa using h
  · have h := (C4_is_operational_iff
      (StationStatusInfo.mk (.str "C") .IN_SERVICE (.num 5) (.num 0) (.num 0)
        (.bool false) (.bool true) .null []) false true rfl rfl).2
    simp at h
    simpa using h

/-! ## Claim C10 -/
/-- Claim C10: a station object without a `station_id` key yields a record
whose `station_id` is Python `None` (not a string), and
`find_station_by_id` never returns such a record: any record it returns
has `station_id` equal to the searched string. -/
theorem C10_missing_station_id (fields : List (String × Json)) (rec : StationStatusInfo)
    (hm : lookupField fields "station_id" = none)
    (h : StationStatusInfo.init (.obj fields) = .ok rec) :
    rec.station_id = .null ∧
    ∀ r sid st, find_station_by_id r sid = .ok (some st) →
      st.station_id = .str sid ∧ st ≠ rec := by
  have hid : rec.station_id = .null := by
    have := (init_obj_ok fields rec h).1
    rw [hm] at this
    exact this
  refine ⟨hid, ?_⟩
  intro r sid st hf
  unfold find_station_by_id at hf
  obtain ⟨pair, hg, hf⟩ := bindE_ok.mp hf
  obtain ⟨stations, ts⟩ := pair
  simp only [] at hf
  injection hf with hf
  have hp := List.find?_some hf
  have hsid : st.station_id = .str sid := (pyEq_str_iff _ _).mp hp
  refine ⟨hsid, ?_⟩
  intro he
  rw [he, hid] at hsid
  exact Json.noConfusion hsid

/-- Claim C10 witness: the record built from a station object with no
fields has a `None` station id, and a concrete successful lookup returns
the record carrying the searched id. -/
theorem C10_witness :
    (StationStatusInfo.mk .null .IN_SERVICE (.num 0) (.num 0) (.num 0)
      (.bool false) (.bool false) .null []).station_id = .null := by
  have h := C10_missing_station_id []
    (StationStatusInfo.mk .null .IN_SERVICE (.num 0) (.num 0) (.num 0)
      (.bool false) (.bool false) .null []) rfl rfl
  exact h.1

/-! ## Counterexamples to claims C1, C2 and C6 as stated -/
/-- Claim C1 counterexample: a parsed body missing the expected top-level
field `data` but carrying `last_updated` makes `get_stations_status`
return the empty list together with that timestamp — not an absent
timestamp as the claim states. -/
theorem C1_counterexample :
    get_stations_status (.response 200 (some (.obj [("last_updated", .num 5)]))) =
      .ok ([], .num 5) ∧ Json.num 5 ≠ Json.null :=
  ⟨rfl, fun h => Json.noConfusion h⟩

/-- Claim C2 counterexample: on the body `{"data": 5}` the expression
`json_data.get('data', {}).get('stations', [])` calls `.get` on an int,
raising an `AttributeError` that matches neither `except` clause, so
`get_stations_status` raises to the caller instead of returning the
empty result. -/
theorem C2_counterexample :
    get_stations_status (.response 200 (some (.obj [("data", .num 5)]))) =
      .error .attributeError := rfl

/-- Claim C6 counterexample: one malformed station field does abort the
whole fetch — a station whose `vehicle_types_available` is the number 5
makes the constructor's `for` loop raise an uncaught `TypeError`, which
propagates out of `get_stations_status`. -/
theorem C6_counterexample :
    get_stations_status (.response 200 (some (.obj [("data", .obj [("stations",
        .arr [.obj [("vehicle_types_available", .num 5)]])])]))) =
      .error .typeError := rfl

/-! ## Claim C1 (amended) -/
/-- The fetch body on a status-200 response with a parsed dict body,
with the pure dict reads resolved. -/
lemma gss_try_obj (fields : List (String × Json)) :
    get_stations_status_try (.response 200 (some (.obj fields))) =
      (dictGet ((lookupField fields "data").getD (.obj [])) "stations" (.arr [])) >>=
        (fun stations_data => (pyIter stations_data) >>= (fun items =>
          (mapExcept StationStatusInfo.init items) >>= (fun stations =>
            Except.ok (stations, (lookupField fields "last_updated").getD .null)))) := rfl

/-- Claim C1 (amended): transport failure, a non-success (non-200) status
and an unparseable body all make `get_stations_status` return
`([], None)`.  A parsed dict body missing the expected top-level field
`data` yields the empty station list together with the body's
`last_updated` value, which is `None` exactly when that field is also
missing (for example on the body `{}`) — not unconditionally `None`. -/
theorem C1_amended (r : FetchResult) :
    (r = .transportError → get_stations_status r = .ok ([], .null)) ∧
    (∀ sc body, sc ≠ 200 → r = .response sc body →
        get_stations_status r = .ok ([], .null)) ∧
    (∀ sc, r = .response sc none → get_stations_status r = .ok ([], .null)) ∧
    (∀ fields, r = .response 200 (some (.obj fields)) →
        lookupField fields "data" = none →
        get_stations_status r =
          .ok ([], (lookupField fields "last_updated").getD .null)) := by
  refine ⟨?_, ?_, ?_, ?_⟩
  · rintro rfl; rfl
  · rintro sc body hsc rfl
    unfold get_stations_status get_stations_status_try
    simp [hsc]
  · rintro sc rfl
    unfold get_stations_status get_stations_status_try
    by_cases hsc : sc = 200 <;> simp [hsc, caughtByFetch]
  · rintro fields rfl hd
    unfold get_stations_status
    rw [gss_try_obj, hd]
    rfl

/-- Claim C1 (amended) witness: the four branches at concrete inputs —
a transport error, a 404, an unparseable body and the body
`{"last_updated": 7}` (missing `data`, timestamp present). -/
theorem C1_amended_witness :
    get_stations_status .transportError = .ok ([], .null) ∧
    get_stations_status (.response 404 (some (.obj []))) = .ok ([], .null) ∧
    get_stations_status (.response 200 none) = .ok ([], .null) ∧
    get_stations_status (.response 200 (some (.obj [("last_updated", .num 7)]))) =
      .ok ([], .num 7) := by
  refine ⟨(C1_amended _).1 rfl, (C1_amended _).2.1 404 _ (by decide) rfl,
    (C1_amended _).2.2.1 200 rfl, ?_⟩
  exact (C1_amended _).2.2.2 [("last_updated", .num 7)] rfl rfl

/-! ## Claim C3 -/
/-- Any value other than the three member strings makes `StationStatus`
raise `ValueError`, which the constructor turns into `IN_SERVICE`. -/
lemma stationStatusOfValue_unrecognized (v : Json)
    (h1 : v ≠ .str "IN_SERVICE") (h2 : v ≠ .str "MAINTENANCE")
    (h3 : v ≠ .str "OUT_OF_SERVICE") :
    stationStatusOfValue v = .IN_SERVICE := by
  unfold stationStatusOfValue
  split <;> simp_all

/-- Claim C3: a recognized status string yields the matching enumeration
member; an unrecognized or missing status yields `IN_SERVICE`; and every
constructed record's status is one of the three members. -/
theorem C3_status_coercion (d : Json) (rec : StationStatusInfo)
    (h : StationStatusInfo.init d = .ok rec) :
    (rec.status = .IN_SERVICE ∨ rec.status = .MAINTENANCE ∨
      rec.status = .OUT_OF_SERVICE) ∧
    ∀ fields, d = .obj fields →
      ((lookupField fields "status" = some (.str "IN_SERVICE") →
          rec.status = .IN_SERVICE) ∧
       (lookupField fields "status" = some (.str "MAINTENANCE") →
          rec.status = .MAINTENANCE) ∧
       (lookupField fields "status" = some (.str "OUT_OF_SERVICE") →
          rec.status = .OUT_OF_SERVICE) ∧
       (∀ v, lookupField fields "status" = some v → v ≠ .str "IN_SERVICE" →
          v ≠ .str "MAINTENANCE" → v ≠ .str "OUT_OF_SERVICE" →
          rec.status = .IN_SERVICE) ∧
       (lookupField fields "status" = none → rec.status = .IN_SERVICE)) := by
  constructor
  · cases rec.status <;> simp
  · rintro fields rfl
    have hst := (init_obj_ok fields rec h).2.1
    refine ⟨?_, ?_, ?_, ?_, ?_⟩
    · intro hl; rw [hl] at hst; exact hst
    · intro hl; rw [hl] at hst; exact hst
    · intro hl; rw [hl] at hst; exact hst
    · intro v hl h1 h2 h3
      rw [hl] at hst
      simp only [Option.getD_some] at hst
      rw [hst]
      exact stationStatusOfValue_unrecognized v h1 h2 h3
    · intro hl; rw [hl] at hst; exact hst

/-- Claim C3 witness: the three recognized strings, an unrecognized
string and a missing status at concrete station objects. -/
theorem C3_witness :
    (StationStatusInfo.mk .null .MAINTENANCE (.num 0) (.num 0) (.num 0)
      (.bool false) (.bool false) .null []).status = .MAINTENANCE ∧
    (StationStatusInfo.mk .null .OUT_OF_SERVICE (.num 0) (.num 0) (.num 0)
      (.bool false) (.bool false) .null []).status = .OUT_OF_SERVICE ∧
    (StationStatusInfo.mk .null .IN_SERVICE (.num 0) (.num 0) (.num 0)
      (.bool false) (.bool false) .null []).status = .IN_SERVICE := by
  refine ⟨?_, ?_, ?_⟩
  · exact ((C3_status_coercion (.obj [("status", .str "MAINTENANCE")]) _ rfl).2
      _ rfl).2.1 rfl
  · exact ((C3_status_coercion (.obj [("status", .str "OUT_OF_SERVICE")]) _ rfl).2
      _ rfl).2.2.1 rfl
  · exact ((C3_status_coercion (.obj [("status", .str "bogus")]) _ rfl).2
      _ rfl).2.2.2.1 _ rfl (by simp) (by simp) (by simp)

/-! ## Claim C6 (amended) -/
/-- Claim C6 (amended): missing station fields get per-field defaults —
missing numeric fields default to 0, missing booleans to false, a missing
vehicle-type list to the empty list (and a missing status to `IN_SERVICE`,
a missing station id and last-reported to `None`) — so a station with
missing fields still constructs.  (A station field of the wrong container
type, however, does abort the whole fetch: see the counterexample.) -/
theorem C6_amended (fields : List (String × Json)) (rec : StationStatusInfo)
    (h : StationStatusInfo.init (.obj fields) = .ok rec) :
    (lookupField fields "num_bikes_available" = none →
        rec.num_bikes_available = .num 0) ∧
    (lookupField fields "num_bikes_disabled" = none →
        rec.num_bikes_disabled = .num 0) ∧
    (lookupField fields "num_docks_available" = none →
        rec.num_docks_available = .num 0) ∧
    (lookupField fields "is_renting" = none → rec.is_renting = .bool false) ∧
    (lookupField fields "is_returning" = none → rec.is_returning = .bool false) ∧
    (lookupField fields "vehicle_types_available" = none →
        rec.vehicle_types = []) ∧
    (lookupField fields "status" = none → rec.status = .IN_SERVICE) ∧
    (lookupField fields "station_id" = none → rec.station_id = .null) ∧
    (lookupField fields "last_reported" = none → rec.last_reported = .null) := by
  obtain ⟨h1, h2, h3, h4, h5, h6, h7, h8⟩ := init_obj_ok fields rec h
  refine ⟨?_, ?_, ?_, ?_, ?_, ?_, ?_, ?_, ?_⟩
  · intro hl; rw [hl] at h3; exact h3
  · intro hl; rw [hl] at h4; exact h4
  · intro hl; rw [hl] at h5; exact h5
  · intro hl; rw [hl] at h6; exact h6
  · intro hl; rw [hl] at h7; exact h7
  · intro hl; exact init_obj_vt_none fields rec h hl
  · intro hl; rw [hl] at h2; exact h2
  · intro hl; rw [hl] at h1; exact h1
  · intro hl; rw [hl] at h8; exact h8

/-- Claim C6 (amended) witness: the station object `{}` (every field
missing) constructs successfully and every field carries its default. -/
theorem C6_amended_witness :
    (StationStatusInfo.mk .null .IN_SERVICE (.num 0) (.num 0) (.num 0)
      (.bool false) (.bool false) .null []).num_bikes_available = .num 0 ∧
    (StationStatusInfo.mk .null .IN_SERVICE (.num 0) (.num 0) (.num 0)
      (.bool false) (.bool false) .null []).is_renting = .bool false ∧
    (StationStatusInfo.mk .null .IN_SERVICE (.num 0) (.num 0) (.num 0)
      (.bool false) (.bool false) .null []).vehicle_types = [] := by
  have h := C6_amended [] _ rfl
  exact ⟨h.1 rfl, h.2.2.2.1 rfl, h.2.2.2.2.2.1 rfl⟩

/-- Fetching the example snapshot succeeds with the two records and the
body's timestamp. -/
lemma exampleFetch_ok :
    get_stations_status exampleFetch = .ok ([stationA, stationB], .num 1700000000) := rfl

/-! ## Claim C7 -/
/-- A successful `find?` finds the first match: the list splits into a
prefix of non-matches, the found element, and a remainder. -/
lemma find?_first {α : Type} (p : α → Bool) (l : List α) (a : α)
    (h : l.find? p = some a) :
    p a = true ∧ ∃ pre post, l = pre ++ a :: post ∧ ∀ x ∈ pre, p x = false := by
  induction l with
  | nil => simp [List.find?] at h
  | cons x xs ih =>
    by_cases hx : p x = true
    · rw [List.find?_cons_of_pos _ hx] at h
      injection h with h
      subst h
      exact ⟨hx, [], xs, rfl, by simp⟩
    · rw [List.find?_cons_of_neg _ (by simpa using hx)] at h
      obtain ⟨hp, pre, post, heq, hall⟩ := ih h
      refine ⟨hp, x :: pre, post, by rw [heq]; rfl, ?_⟩
      intro y hy
      rcases List.mem_cons.mp hy with hy | hy
      · subst hy; simpa using hx
      · exact hall y hy

/-- Claim C7: `find_station_by_id` performs the fetch and scans the fetched
list in order — it returns the first record whose `station_id` equals the
given id (everything before it does not match), and `None` exactly when no
fetched record matches. -/
theorem C7_find_first (r : FetchResult) (stations : List StationStatusInfo)
    (ts : Json) (h : get_stations_status r = .ok (stations, ts)) (sid : String) :
    find_station_by_id r sid =
      .ok (stations.find? (fun s => pyEq s.station_id (.str sid))) ∧
    (∀ st, stations.find? (fun s => pyEq s.station_id (.str sid)) = some st →
      st.station_id = .str sid ∧
      ∃ pre post, stations = pre ++ st :: post ∧
        ∀ s2 ∈ pre, s2.station_id ≠ .str sid) ∧
    (stations.find? (fun s => pyEq s.station_id (.str sid)) = none ↔
      ∀ st ∈ stations, st.station_id ≠ .str sid) := by
  refine ⟨?_, ?_, ?_⟩
  · unfold find_station_by_id
    rw [h]
    rfl
  · intro st hf
    obtain ⟨hp, pre, post, heq, hall⟩ := find?_first _ _ _ hf
    refine ⟨(pyEq_str_iff _ _).mp hp, pre, post, heq, ?_⟩
    intro s2 hs2
    have := hall s2 hs2
    intro he
    rw [(pyEq_str_iff s2.station_id sid).mpr he] at this
    exact Bool.noConfusion this
  · rw [List.find?_eq_none]
    constructor
    · intro hn st hst he
      exact hn st hst ((pyEq_str_iff _ _).mpr he)
    · intro hn st hst hp
      exact hn st hst ((pyEq_str_iff _ _).mp hp)

/-- Claim C7 witness: on the example snapshot, looking up "B" returns
station B's record and looking up "Z" returns `None`. -/
theorem C7_witness :
    find_station_by_id exampleFetch "B" = .ok (some stationB) ∧
    find_station_by_id exampleFetch "Z" = .ok none := by
  constructor
  · have h := (C7_find_first exampleFetch [stationA, stationB]
      (.num 1700000000) exampleFetch_ok "B").1
    rw [h]
    rfl
  · have h := (C7_find_first exampleFetch [stationA, stationB]
      (.num 1700000000) exampleFetch_ok "Z").1
    rw [h]
    rfl

/-! ## Claim C8 -/
/-- Claim C8: `get_operational_stations` performs the fetch and returns
exactly the fetched records whose `is_operational` value is truthy, as an
order-preserving sublist of the snapshot. -/
theorem C8_operational_filter (r : FetchResult) (stations : List StationStatusInfo)
    (ts : Json) (h : get_stations_status r = .ok (stations, ts)) :
    get_operational_stations r =
      .ok (stations.filter (fun s => truthy s.is_operational)) ∧
    List.Sublist (stations.filter (fun s => truthy s.is_operational)) stations ∧
    ∀ st, st ∈ stations.filter (fun s => truthy s.is_operational) ↔
      (st ∈ stations ∧ truthy st.is_operational = true) := by
  refine ⟨?_, List.filter_sublist stations, fun st => List.mem_filter⟩
  unfold get_operational_stations
  rw [h]
  rfl

/-- Claim C8 witness: on the example snapshot only station A (in service,
renting and returning) is operational. -/
theorem C8_witness :
    get_operational_stations exampleFetch = .ok [stationA] := by
  have h := (C8_operational_filter exampleFetch [stationA, stationB]
    (.num 1700000000) exampleFetch_ok).1
  rw [h]
  rfl

/-- A list comprehension whose condition raises nowhere on the list
equals the pure filter. -/
lemma filterExcept_eq_filter {α : Type} (p : α → Except PyErr Bool) (q : α → Bool)
    (l : List α) (h : ∀ x ∈ l, p x = .ok (q x)) :
    filterExcept p l = .ok (l.filter q) := by
  induction l with
  | nil => rfl
  | cons x xs ih =>
    have hx := h x (by simp)
    have hrest := ih (fun y hy => h y (by simp [hy]))
    cases hq : q x <;>
      simp [filterExcept, hx, hrest, hq, List.filter_cons, Bind.bind, Except.bind] <;>
      rfl

/-- Claim C9: `get_stations_with_available_bikes` performs the fetch and,
when every fetched record's bike count is an integer, returns exactly the
records with at least `min_bikes` bikes, order preserved; the argument
defaults to 1. -/
theorem C9_min_bikes_filter (r : FetchResult) (stations : List StationStatusInfo)
    (ts : Json) (h : get_stations_status r = .ok (stations, ts)) (min_bikes : Int)
    (hn : ∀ s ∈ stations, ∃ n : Int, s.num_bikes_available = .num n) :
    get_stations_with_available_bikes r min_bikes =
      .ok (stations.filter (fun s => specBikesGe s min_bikes)) ∧
    List.Sublist (stations.filter (fun s => specBikesGe s min_bikes)) stations ∧
    (∀ st, st ∈ stations.filter (fun s => specBikesGe s min_bikes) ↔
      (st ∈ stations ∧ ∃ n : Int, st.num_bikes_available = .num n ∧ min_bikes ≤ n)) ∧
    get_stations_with_available_bikes r = get_stations_with_available_bikes r 1 := by
  refine ⟨?_, List.filter_sublist stations, ?_, rfl⟩
  · unfold get_stations_with_available_bikes
    rw [h]
    show filterExcept _ stations = _
    apply filterExcept_eq_filter
    intro s hs
    obtain ⟨n, hn2⟩ := hn s hs
    rw [hn2]
    unfold pyGeInt specBikesGe
    rw [hn2]
  · intro st
    rw [List.mem_filter]
    unfold specBikesGe
    constructor
    · rintro ⟨hm, hb⟩
      refine ⟨hm, ?_⟩
      cases hv : st.num_bikes_available <;> rw [hv] at hb <;>
        simp at hb
      exact ⟨_, rfl, hb⟩
    · rintro ⟨hm, n, hv, hge⟩
      exact ⟨hm, by rw [hv]; simpa using hge⟩

/-- Claim C9 witness: on the example snapshot, a minimum of 1 bike keeps
only station A and a minimum of 0 keeps both, in order. -/
theorem C9_witness :
    get_stations_with_available_bikes exampleFetch 1 = .ok [stationA] ∧
    get_stations_with_available_bikes exampleFetch 0 = .ok [stationA, stationB] := by
  have hn : ∀ s ∈ [stationA, stationB], ∃ n : Int, s.num_bikes_available = .num n := by
    intro s hs
    rcases List.mem_cons.mp hs with h | hs
    · exact ⟨5, by rw [h]; rfl⟩
    rcases List.mem_cons.mp hs with h | hs
    · exact ⟨0, by rw [h]; rfl⟩
    · simp at hs
  constructor
  · have h := (C9_min_bikes_filter exampleFetch [stationA, stationB]
      (.num 1700000000) exampleFetch_ok 1 hn).1
    rw [h]; rfl
  · have h := (C9_min_bikes_filter exampleFetch [stationA, stationB]
      (.num 1700000000) exampleFetch_ok 0 hn).1
    rw [h]; rfl

/-! ## Claim C5: dictionary lemmas -/
lemma dictAssign_hashable (d : List (Json × Json)) (k v : Json)
    (d2 : List (Json × Json)) (h : dictAssign d k v = .ok d2) :
    hashable k = true := by
  by_cases hk : hashable k = true
  · exact hk
  · unfold dictAssign at h
    rw [if_neg hk] at h
    exact Except.noConfusion h

/-- The replacement map of `dictAssign` keeps every key unchanged. -/
lemma replaceVal_fst (k v : Json) (q : Json × Json) :
    (if pyEq q.fst k then (q.fst, v) else q).fst = q.fst := by
  by_cases h2 : pyEq q.fst k = true <;> simp [h2]

lemma dictAssign_keys_hashable (d : List (Json × Json)) (k v : Json)
    (d2 : List (Json × Json)) (hd : ∀ p ∈ d, hashable p.fst = true)
    (h : dictAssign d k v = .ok d2) :
    ∀ p ∈ d2, hashable p.fst = true := by
  have hk := dictAssign_hashable d k v d2 h
  unfold dictAssign at h
  rw [if_pos hk] at h
  injection h with h
  subst h
  intro p hp
  by_cases hc : d.any (fun kv => pyEq kv.fst k) = true
  · rw [if_pos hc] at hp
    obtain ⟨q, hq, hfq⟩ := List.mem_map.mp hp
    have hfst : p.fst = q.fst := by rw [← hfq, replaceVal_fst]
    rw [hfst]
    exact hd q hq
  · rw [if_neg hc] at hp
    rcases List.mem_append.mp hp with hp | hp
    · exact hd p hp
    · have : p = (k, v) := by simpa using hp
      rw [this]
      exact hk

/-- Every key of the dict after an assignment is the assigned key or a
key already present. -/
lemma dictAssign_keys (d : List (Json × Json)) (k v : Json)
    (d2 : List (Json × Json)) (h : dictAssign d k v = .ok d2) :
    ∀ p ∈ d2, p.fst = k ∨ ∃ q ∈ d, q.fst = p.fst := by
  have hk := dictAssign_hashable d k v d2 h
  unfold dictAssign at h
  rw [if_pos hk] at h
  injection h with h
  subst h
  intro p hp
  by_cases hc : d.any (fun kv => pyEq kv.fst k) = true
  · rw [if_pos hc] at hp
    obtain ⟨q, hq, hfq⟩ := List.mem_map.mp hp
    exact Or.inr ⟨q, hq, by rw [← hfq, replaceVal_fst]⟩
  · rw [if_neg hc] at hp
    rcases List.mem_append.mp hp with hp | hp
    · exact Or.inr ⟨p, hp, rfl⟩
    · have : p = (k, v) := by simpa using hp
      exact Or.inl (by rw [this])

lemma dictAssign_pairwise (d : List (Json × Json)) (k v : Json)
    (d2 : List (Json × Json)) (hd : ∀ p ∈ d, hashable p.fst = true)
    (hp : List.Pairwise (fun p q => canonKey p.fst ≠ canonKey q.fst) d)
    (h : dictAssign d k v = .ok d2) :
    List.Pairwise (fun p q => canonKey p.fst ≠ canonKey q.fst) d2 := by
  have hk := dictAssign_hashable d k v d2 h
  unfold dictAssign at h
  rw [if_pos hk] at h
  injection h with h
  subst h
  by_cases hc : d.any (fun kv => pyEq kv.fst k) = true
  · rw [if_pos hc]
    refine List.Pairwise.map _ ?_ hp
    intro a b hab
    rw [replaceVal_fst, replaceVal_fst]
    exact hab
  · rw [if_neg hc]
    rw [List.pairwise_append]
    refine ⟨hp, by simp, ?_⟩
    intro a ha b hb
    have hb2 : b = (k, v) := by simpa using hb
    subst hb2
    have hna : pyEq a.fst k = false := by
      by_cases hpa : pyEq a.fst k = true
      · exact absurd (List.any_eq_true.mpr ⟨a, ha, hpa⟩) hc
      · exact Bool.eq_false_iff.mpr hpa
    rw [pyEq_canon a.fst (hd a ha) k] at hna
    exact of_decide_eq_false hna

/-- Looking a key up after the in-place replacement pass: the same entry
is found (keys are unchanged); its value is replaced when its key also
matches the assigned key. -/
lemma dictFind_map_key (k v k2 : Json) (d : List (Json × Json)) :
    dictFind (d.map (fun kv => if pyEq kv.fst k then (kv.fst, v) else kv)) k2 =
      (d.find? (fun kv => pyEq kv.fst k2)).map
        (fun p => if pyEq p.fst k then v else p.snd) := by
  induction d with
  | nil => rfl
  | cons p rest ih =>
    by_cases hp : pyEq p.fst k2 = true
    · unfold dictFind
      rw [List.map_cons,
        @List.find?_cons_of_pos (Json × Json) (fun kv => pyEq kv.fst k2) _ _
          (by simpa only [replaceVal_fst] using hp),
        @List.find?_cons_of_pos (Json × Json) (fun kv => pyEq kv.fst k2) p rest hp]
      by_cases h2 : pyEq p.fst k = true <;> simp [h2]
    · unfold dictFind at ih ⊢
      rw [List.map_cons,
        @List.find?_cons_of_neg (Json × Json) (fun kv => pyEq kv.fst k2) _ _
          (by simpa only [replaceVal_fst] using hp),
        @List.find?_cons_of_neg (Json × Json) (fun kv => pyEq kv.fst k2) p rest (by simpa using hp)]
      exact ih

/-- Looking a key up after appending a fresh entry: the old entries win,
the new entry answers only when nothing matched before. -/
lemma dictFind_append (d : List (Json × Json)) (k v k2 : Json) :
    dictFind (d ++ [(k, v)]) k2 =
      match dictFind d k2 with
      | some w => some w
      | none => if pyEq k k2 then some v else none := by
  induction d with
  | nil =>
    by_cases h : pyEq k k2 = true <;> simp [dictFind, List.find?, h]
  | cons p rest ih =>
    by_cases hp : pyEq p.fst k2 = true
    · unfold dictFind
      rw [List.cons_append,
        @List.find?_cons_of_pos (Json × Json) (fun kv => pyEq kv.fst k2) p _ hp,
        @List.find?_cons_of_pos (Json × Json) (fun kv => pyEq kv.fst k2) p rest hp]
      rfl
    · unfold dictFind at ih ⊢
      rw [List.cons_append,
        @List.find?_cons_of_neg (Json × Json) (fun kv => pyEq kv.fst k2) p _ (by simpa using hp),
        @List.find?_cons_of_neg (Json × Json) (fun kv => pyEq kv.fst k2) p rest (by simpa using hp)]
      exact ih

/-- Effect of one dict assignment on lookups: the assigned key (up to
canonical-form equality) now maps to the new value, every other key is
unaffected. -/
lemma dictAssign_find (d : List (Json × Json)) (k v : Json)
    (d2 : List (Json × Json)) (hd : ∀ p ∈ d, hashable p.fst = true)
    (h : dictAssign d k v = .ok d2) (k2 : Json) :
    dictFind d2 k2 = if canonKey k = canonKey k2 then some v else dictFind d k2 := by
  have hk := dictAssign_hashable d k v d2 h
  unfold dictAssign at h
  rw [if_pos hk] at h
  injection h with h
  subst h
  by_cases hc : d.any (fun kv => pyEq kv.fst k) = true
  · rw [if_pos hc, dictFind_map_key]
    by_cases hkk : canonKey k = canonKey k2
    · rw [if_pos hkk]
      obtain ⟨p0, hp0, hp0k⟩ := List.any_eq_true.mp hc
      have hp0k2 : pyEq p0.fst k2 = true := by
        rw [pyEq_canon p0.fst (hd p0 hp0)] at hp0k ⊢
        exact decide_eq_true ((of_decide_eq_true hp0k).trans hkk)
      cases hfp : d.find? (fun kv => pyEq kv.fst k2) with
      | none =>
        rw [List.find?_eq_none] at hfp
        exact absurd hp0k2 (hfp p0 hp0)
      | some p =>
        have hpk2 := List.find?_some hfp
        have hpmem := List.mem_of_find?_eq_some hfp
        have hcp : canonKey p.fst = canonKey k2 := by
          rw [pyEq_canon p.fst (hd p hpmem)] at hpk2
          exact of_decide_eq_true hpk2
        have hpk : pyEq p.fst k = true := by
          rw [pyEq_canon p.fst (hd p hpmem)]
          exact decide_eq_true (hcp.trans hkk.symm)
        simp [hpk]
    · rw [if_neg hkk]
      cases hfp : d.find? (fun kv => pyEq kv.fst k2) with
      | none => unfold dictFind; rw [hfp]; rfl
      | some p =>
        have hpk2 := List.find?_some hfp
        have hpmem := List.mem_of_find?_eq_some hfp
        have hcp : canonKey p.fst = canonKey k2 := by
          rw [pyEq_canon p.fst (hd p hpmem)] at hpk2
          exact of_decide_eq_true hpk2
        have hpk : pyEq p.fst k = false := by
          rw [pyEq_canon p.fst (hd p hpmem)]
          refine decide_eq_false ?_
          intro he
          exact hkk ((he.symm.trans hcp).symm ▸ rfl)
        unfold dictFind
        rw [hfp]
        simp [hpk]
  · rw [if_neg hc, dictFind_append]
    have hnone : ∀ x ∈ d, pyEq x.fst k = false := by
      intro x hx
      by_cases hpx : pyEq x.fst k = true
      · exact absurd (List.any_eq_true.mpr ⟨x, hx, hpx⟩) hc
      · exact Bool.eq_false_iff.mpr hpx
    by_cases hkk : canonKey k = canonKey k2
    · rw [if_pos hkk]
      cases hfp : dictFind d k2 with
      | some w =>
        exfalso
        unfold dictFind at hfp
        cases hfp2 : d.find? (fun kv => pyEq kv.fst k2) with
        | none => rw [hfp2] at hfp; exact Option.noConfusion hfp
        | some p =>
          have hpk2 := List.find?_some hfp2
          have hpmem := List.mem_of_find?_eq_some hfp2
          have hcp : canonKey p.fst = canonKey k2 := by
            rw [pyEq_canon p.fst (hd p hpmem)] at hpk2
            exact of_decide_eq_true hpk2
          have : pyEq p.fst k = true := by
            rw [pyEq_canon p.fst (hd p hpmem)]
            exact decide_eq_true (hcp.trans hkk.symm)
          rw [hnone p hpmem] at this
          exact Bool.noConfusion this
      | none =>
        have hpkk : pyEq k k2 = true := by
          rw [pyEq_canon k hk]
          exact decide_eq_true hkk
        simp [hpkk]
    · rw [if_neg hkk]
      cases hfp : dictFind d k2 with
      | some w => rfl
      | none =>
        have hpkk : pyEq k k2 = false := by
          rw [pyEq_canon k hk]
          exact decide_eq_false hkk
        simp [hpkk]

/-- A dict build that succeeds only ever assigned hashable ids. -/
lemma buildDict_ids_hashable (l : List VehicleType) (d dict : List (Json × Json))
    (h : buildDict d l = .ok dict) :
    ∀ vt ∈ l, hashable vt.vehicle_type_id = true := by
  induction l generalizing d with
  | nil => simp
  | cons vt rest ih =>
    unfold buildDict at h
    obtain ⟨d2, ha, hb⟩ := bindE_ok.mp h
    intro x hx
    rcases List.mem_cons.mp hx with hx | hx
    · subst hx
      exact dictAssign_hashable _ _ _ _ ha
    · exact ih d2 hb x hx

/-- Invariant of the dict-building loop: starting from a dict with
hashable, pairwise-distinct keys, the result keeps that shape, looks up
each key to the count of the last matching vehicle type (falling back to
the initial dict), and only holds keys that were assigned or initial. -/
lemma buildDict_spec (l : List VehicleType) (d dict : List (Json × Json))
    (hd : ∀ p ∈ d, hashable p.fst = true)
    (hp : List.Pairwise (fun p q => canonKey p.fst ≠ canonKey q.fst) d)
    (h : buildDict d l = .ok dict) :
    (∀ p ∈ dict, hashable p.fst = true) ∧
    List.Pairwise (fun p q => canonKey p.fst ≠ canonKey q.fst) dict ∧
    (∀ k2, dictFind dict k2 =
      match l.reverse.find? (fun vt => pyEq vt.vehicle_type_id k2) with
      | some vt => some vt.count
      | none => dictFind d k2) ∧
    (∀ p ∈ dict, (∃ vt ∈ l, vt.vehicle_type_id = p.fst) ∨ ∃ q ∈ d, q.fst = p.fst) := by
  induction l generalizing d with
  | nil =>
    injection h with h
    subst h
    exact ⟨hd, hp, fun k2 => by simp [List.find?],
      fun p hp2 => Or.inr ⟨p, hp2, rfl⟩⟩
  | cons vt rest ih =>
    unfold buildDict at h
    obtain ⟨d2, ha, hb⟩ := bindE_ok.mp h
    have hk := dictAssign_hashable _ _ _ _ ha
    have hd2 := dictAssign_keys_hashable _ _ _ _ hd ha
    have hp2 := dictAssign_pairwise _ _ _ _ hd hp ha
    obtain ⟨g1, g2, g3, g4⟩ := ih d2 hd2 hp2 hb
    refine ⟨g1, g2, ?_, ?_⟩
    · intro k2
      rw [g3 k2, List.reverse_cons, List.find?_append,
        dictAssign_find d _ _ d2 hd ha k2]
      cases hf : rest.reverse.find? (fun x => pyEq x.vehicle_type_id k2) with
      | some x => rfl
      | none =>
        by_cases hkk : canonKey vt.vehicle_type_id = canonKey k2
        · have hpk : pyEq vt.vehicle_type_id k2 = true := by
            rw [pyEq_canon _ hk]
            exact decide_eq_true hkk
          simp [List.find?, hpk, hkk, Option.or]
        · have hpk : pyEq vt.vehicle_type_id k2 = false := by
            rw [pyEq_canon _ hk]
            exact decide_eq_false hkk
          simp [List.find?, hpk, hkk, Option.or]
    · intro p hpd
      rcases g4 p hpd with ⟨vt2, hvt2, he⟩ | ⟨q, hq, hqf⟩
      · exact Or.inl ⟨vt2, List.mem_cons_of_mem _ hvt2, he⟩
      · rcases dictAssign_keys _ _ _ _ ha q hq with hqk | ⟨q2, hq2, hq2f⟩
        · exact Or.inl ⟨vt, List.mem_cons_self _ _, by rw [← hqf, hqk]⟩
        · exact Or.inr ⟨q2, hq2, by rw [hq2f, hqf]⟩

/-- Claim C5: a successful `get_available_bikes_by_type` returns a mapping
with pairwise `==`-distinct keys; every key is a `vehicle_type_id`
occurring in the record's list (with the original key object) and every
occurring id matches a key; and looking any key up yields the count of the
last matching occurrence in input order (last-write-wins). -/
theorem C5_bikes_by_type (s : StationStatusInfo) (dict : List (Json × Json))
    (h : s.get_available_bikes_by_type = .ok dict) :
    List.Pairwise (fun p q => pyEq p.fst q.fst = false) dict ∧
    (∀ p ∈ dict, ∃ vt ∈ s.vehicle_types, vt.vehicle_type_id = p.fst) ∧
    (∀ vt ∈ s.vehicle_types, ∃ p ∈ dict, pyEq vt.vehicle_type_id p.fst = true) ∧
    (∀ k, dictFind dict k =
      match s.vehicle_types.reverse.find? (fun vt => pyEq vt.vehicle_type_id k) with
      | some vt => some vt.count
      | none => none) := by
  unfold StationStatusInfo.get_available_bikes_by_type at h
  obtain ⟨g1, g2, g3, g4⟩ :=
    buildDict_spec s.vehicle_types [] dict (by simp) (by simp) h
  refine ⟨?_, ?_, ?_, ?_⟩
  · refine List.Pairwise.imp_of_mem ?_ g2
    intro a b ha hb hab
    rw [pyEq_canon a.fst (g1 a ha)]
    exact decide_eq_false hab
  · intro p hpd
    rcases g4 p hpd with hvt | ⟨q, hq, _⟩
    · exact hvt
    · simp at hq
  · intro vt hvt
    have hk : hashable vt.vehicle_type_id = true :=
      buildDict_ids_hashable s.vehicle_types [] dict h vt hvt
    have hrefl : pyEq vt.vehicle_type_id vt.vehicle_type_id = true := pyEq_refl _ hk
    have hg := g3 vt.vehicle_type_id
    cases hf : s.vehicle_types.reverse.find?
        (fun x => pyEq x.vehicle_type_id vt.vehicle_type_id) with
    | none =>
      rw [List.find?_eq_none] at hf
      exact absurd hrefl (hf vt (List.mem_reverse.mpr hvt))
    | some x =>
      rw [hf] at hg
      unfold dictFind at hg
      cases hfp : dict.find? (fun kv => pyEq kv.fst vt.vehicle_type_id) with
      | none => rw [hfp] at hg; exact Option.noConfusion hg
      | some p =>
        have hpmem := List.mem_of_find?_eq_some hfp
        have hpk := List.find?_some hfp
        have hcp : canonKey p.fst = canonKey vt.vehicle_type_id := by
          rw [pyEq_canon p.fst (g1 p hpmem)] at hpk
          exact of_decide_eq_true hpk
        refine ⟨p, hpmem, ?_⟩
        rw [pyEq_canon _ hk]
        exact decide_eq_true hcp.symm
  · intro k
    have hg := g3 k
    cases hf : s.vehicle_types.reverse.find? (fun vt => pyEq vt.vehicle_type_id k) with
    | some x => rw [hf] at hg; simpa using hg
    | none => rw [hf] at hg; simpa using hg

/-- Claim C5 witness: on the duplicated-id record the mapping holds the
count of the last "bike" occurrence (7, not 3) and the "ebike" count. -/
theorem C5_witness :
    dictFind [(Json.str "bike", Json.num 7), (Json.str "ebike", Json.num 2)]
      (.str "bike") = some (.num 7) ∧
    dictFind [(Json.str "bike", Json.num 7), (Json.str "ebike", Json.num 2)]
      (.str "ebike") = some (.num 2) := by
  have h := C5_bikes_by_type stationDup
    [(.str "bike", .num 7), (.str "ebike", .num 2)] rfl
  exact ⟨h.2.2.2 (.str "bike"), h.2.2.2 (.str "ebike")⟩

/-! ## Claim C2 (amended) -/
@[simp] lemma okBind {α β : Type} (a : α) (f : α → Except PyErr β) :
    (Except.ok a : Except PyErr α) >>= f = f a := rfl

@[simp] lemma errorBind {α β : Type} (e : PyErr) (f : α → Except PyErr β) :
    (Except.error e : Except PyErr α) >>= f = .error e := rfl

/-- The vehicle-type loop succeeds on a list of dicts. -/
lemma mapExcept_vt_ok (vts : List Json)
    (h : ∀ vt ∈ vts, ∃ fs, vt = .obj fs) :
    ∃ l, mapExcept vehicleTypeOfJson vts = .ok l := by
  induction vts with
  | nil => exact ⟨[], rfl⟩
  | cons v rest ih =>
    obtain ⟨fs, hv⟩ := h v (List.mem_cons_self _ _)
    obtain ⟨l, hl⟩ := ih (fun x hx => h x (List.mem_cons_of_mem _ hx))
    subst hv
    refine ⟨⟨(lookupField fs "vehicle_type_id").getD (.str ""),
             (lookupField fs "count").getD (.num 0)⟩ :: l, ?_⟩
    simp [mapExcept, vehicleTypeOfJson, dictGet, hl]

/-- The constructor succeeds on every well-shaped station object. -/
lemma init_ok_of_wellShaped (st : Json) (h : wellShapedStation st = true) :
    ∃ rec, StationStatusInfo.init st = .ok rec := by
  cases st with
  | null => simp [wellShapedStation] at h
  | bool b => simp [wellShapedStation] at h
  | num n => simp [wellShapedStation] at h
  | str s => simp [wellShapedStation] at h
  | arr xs => simp [wellShapedStation] at h
  | obj fields =>
    cases hres : StationStatusInfo.init (.obj fields) with
    | ok rec => exact ⟨rec, rfl⟩
    | error e =>
      exfalso
      simp only [wellShapedStation] at h
      cases hvt : lookupField fields "vehicle_types_available" with
      | none =>
        rw [init_obj, hvt] at hres
        exact Except.noConfusion hres
      | some vtd =>
        rw [hvt] at h
        cases vtd with
        | arr vts =>
          simp only [wellShapedVtField] at h
          have hall : ∀ vt ∈ vts, ∃ fs, vt = .obj fs := by
            intro vt hmem
            have hv := List.all_eq_true.mp h vt hmem
            cases vt <;> simp [isObj] at hv ⊢
          obtain ⟨l, hl⟩ := mapExcept_vt_ok vts hall
          rw [init_obj, hvt] at hres
          simp [pyIter, hl] at hres
        | null => simp [wellShapedVtField] at h
        | bool b => simp [wellShapedVtField] at h
        | num n => simp [wellShapedVtField] at h
        | str s2 => simp [wellShapedVtField] at h
        | obj fs2 => simp [wellShapedVtField] at h

/-- The station list comprehension succeeds on a list of well-shaped
station objects. -/
lemma mapExcept_init_ok (sts : List Json)
    (h : ∀ st ∈ sts, wellShapedStation st = true) :
    ∃ l, mapExcept StationStatusInfo.init sts = .ok l := by
  induction sts with
  | nil => exact ⟨[], rfl⟩
  | cons st rest ih =>
    obtain ⟨rec, hrec⟩ := init_ok_of_wellShaped st (h st (List.mem_cons_self _ _))
    obtain ⟨l, hl⟩ := ih (fun x hx => h x (List.mem_cons_of_mem _ hx))
    exact ⟨rec :: l, by simp [mapExcept, hrec, hl]⟩

/-- Claim C2 (amended): `get_stations_status` returns (never raises) for
every transport failure, every non-success response, every unparseable
body, and every parsed body whose containers have the expected types
(top-level dict; `data` a dict if present; `stations` a list of
well-shaped station dicts if present).  On bodies with other container
types an uncaught `AttributeError`/`TypeError` can propagate to the
caller, as the counterexample shows. -/
theorem C2_amended (r : FetchResult)
    (hw : ∀ j, r = .response 200 (some j) → wellShapedBody j = true) :
    ∃ v, get_stations_status r = .ok v := by
  cases r with
  | transportError => exact ⟨([], .null), rfl⟩
  | response sc body =>
    by_cases hsc : sc = 200
    · subst hsc
      cases body with
      | none => exact ⟨([], .null), rfl⟩
      | some j =>
        have hj := hw j rfl
        cases j with
        | null => simp [wellShapedBody] at hj
        | bool b => simp [wellShapedBody] at hj
        | num n => simp [wellShapedBody] at hj
        | str s => simp [wellShapedBody] at hj
        | arr xs => simp [wellShapedBody] at hj
        | obj fields =>
          cases hres : get_stations_status_try (.response 200 (some (.obj fields))) with
          | ok v => exact ⟨v, by unfold get_stations_status; rw [hres]⟩
          | error e =>
            exfalso
            simp only [wellShapedBody] at hj
            rw [gss_try_obj] at hres
            cases hd : lookupField fields "data" with
            | none =>
              rw [hd] at hres
              exact Except.noConfusion hres
            | some dv =>
              rw [hd] at hj
              cases dv with
              | obj dfields =>
                rw [hd] at hres
                simp only [wellShapedData] at hj
                cases hs : lookupField dfields "stations" with
                | none =>
                  simp [dictGet, hs, pyIter, mapExcept] at hres
                | some sv =>
                  rw [hs] at hj
                  cases sv with
                  | arr sts =>
                    simp only [wellShapedStationsField] at hj
                    have hall : ∀ st ∈ sts, wellShapedStation st = true :=
                      List.all_eq_true.mp hj
                    obtain ⟨l, hl⟩ := mapExcept_init_ok sts hall
                    simp [dictGet, hs, pyIter, hl] at hres
                  | null => simp [wellShapedStationsField] at hj
                  | bool b => simp [wellShapedStationsField] at hj
                  | num n => simp [wellShapedStationsField] at hj
                  | str s2 => simp [wellShapedStationsField] at hj
                  | obj fs2 => simp [wellShapedStationsField] at hj
              | null => simp [wellShapedData] at hj
              | bool b => simp [wellShapedData] at hj
              | num n => simp [wellShapedData] at hj
              | str s2 => simp [wellShapedData] at hj
              | arr xs2 => simp [wellShapedData] at hj
    · refine ⟨([], .null), ?_⟩
      unfold get_stations_status get_stations_status_try
      simp [hsc]

/-- Claim C2 (amended) witness: a concrete well-shaped body — one station
with one vehicle-type entry — fetches without raising. -/
theorem C2_amended_witness :
    ∃ v, get_stations_status (.response 200 (some (.obj [("data", .obj [("stations",
      .arr [.obj [("station_id", .str "A"), ("vehicle_types_available",
        .arr [.obj [("vehicle_type_id", .str "bike"), ("count", .num 3)]])]])])]))) =
      .ok v := by
  apply C2_amended
  intro j hj
  injection hj with h1 h2
  injection h2 with h3
  subst h3
  rfl
